import Mathlib

/-!
Verification of the recaf-mcp bridge (`recaf_mcp_bridge/bridge.py`).

The bridge forwards four MCP operations (list tools, call tool, list
resources, read resource) from a stdio front end to an HTTP backend
session, with a 30-second TTL cache on the two metadata-listing
operations and cache invalidation on backend swap.

Embedding conventions:
* `time.monotonic()` readings are modelled as integers (`ℤ`); the source
  only ever subtracts two readings and order-compares the difference
  against the integral TTL constant, and compares a reading against `0`,
  so the integer model captures every comparison the bridge makes.
* A backend `ClientSession` is identified by a `Nat`; Python `is not`
  identity comparison on `self.backend` becomes equality on `Option Nat`
  (each live session object gets a distinct identifier, `None` is
  identical only to itself).
* Each handler is a pure function of the current state, the clock
  reading, and the backend's response for this particular invocation;
  it returns the result (`Except` for a raised exception), the updated
  state, and a `Bool` recording whether the backend was invoked.
-/

/-- Decidable equality for `Except`, needed to evaluate handler results
on concrete inputs. -/
instance {ε α : Type} [DecidableEq ε] [DecidableEq α] :
    DecidableEq (Except ε α) := fun a b =>
  match a, b with
  | .ok x, .ok y =>
      if h : x = y then .isTrue (by rw [h])
      else .isFalse (fun hc => by cases hc; exact h rfl)
  | .error x, .error y =>
      if h : x = y then .isTrue (by rw [h])
      else .isFalse (fun hc => by cases hc; exact h rfl)
  | .ok _, .error _ => .isFalse (fun hc => by cases hc)
  | .error _, .ok _ => .isFalse (fun hc => by cases hc)

namespace RecafBridge

/-- A tool descriptor; only its identity matters to the bridge. -/
abbrev Tool := String

/-- A resource descriptor; only its identity matters to the bridge. -/
abbrev Resource := String

/-- One item of a call-tool content list (opaque to the bridge). -/
abbrev ContentItem := String

/-- Tool-call arguments (`dict[str, Any]` in the source, opaque here). -/
abbrev Args := List (String × String)

/-- Errors a handler can raise: the `RuntimeError("Backend not connected")`
guard, or an exception propagated from a backend call. -/
inductive BridgeError where
  | notConnected
  | backendFailure (msg : String)
deriving DecidableEq, Repr

/-- The mutable state of `RecafMcpBridge`: the active backend session (by
identity), the two metadata cache slots, and their capture timestamps.
`_tools_cache_at = 0.0` is the initial sentinel. -/
structure Bridge where
  backend : Option Nat
  toolsCache : Option (List Tool)
  toolsCacheAt : ℤ
  resourcesCache : Option (List Resource)
  resourcesCacheAt : ℤ
deriving DecidableEq, Repr

/-- `self._metadata_cache_ttl_seconds = 30.0`: fixed at construction,
never written afterwards, shared by both metadata kinds. -/
def metadataCacheTtlSeconds : ℤ := 30

/-- State produced by `__init__`: no backend, both caches empty, capture
timestamps `0.0`. -/
def mkBridge : Bridge :=
  { backend := none, toolsCache := none, toolsCacheAt := 0,
    resourcesCache := none, resourcesCacheAt := 0 }

/-- `_cache_valid`: `cache_at > 0 and (time.monotonic() - cache_at) < ttl`. -/
def cacheValid (cacheAt now : ℤ) : Bool :=
  decide (0 < cacheAt) && decide (now - cacheAt < metadataCacheTtlSeconds)

/-- `_clear_metadata_cache`: resets both slots and both timestamps. -/
def clearMetadataCache (s : Bridge) : Bridge :=
  { s with toolsCache := none, toolsCacheAt := 0,
           resourcesCache := none, resourcesCacheAt := 0 }

/-- `_set_backend`: clears the metadata cache when the new handle is not
identical to the current one, then installs the new handle. -/
def setBackend (s : Bridge) (b : Option Nat) : Bridge :=
  let s1 := if b = s.backend then s else clearMetadataCache s
  { s1 with backend := b }

/-- The tail of `_list_tools` after a cache miss: awaits the backend's
list-tools call (response `fetch`), stores and returns the result on
success, propagates the exception without touching state on failure. -/
def listToolsFetch (s : Bridge) (now : ℤ) (fetch : Except String (List Tool)) :
    Except BridgeError (List Tool) × Bridge × Bool :=
  match fetch with
  | .ok tools =>
      (.ok tools, { s with toolsCache := some tools, toolsCacheAt := now }, true)
  | .error e => (.error (.backendFailure e), s, true)

/-- `_list_tools`: not-connected guard, cache check, then fetch. -/
def listTools (s : Bridge) (now : ℤ) (fetch : Except String (List Tool)) :
    Except BridgeError (List Tool) × Bridge × Bool :=
  match s.backend with
  | none => (.error .notConnected, s, false)
  | some _ =>
      match s.toolsCache with
      | some cached =>
          if cacheValid s.toolsCacheAt now then (.ok cached, s, false)
          else listToolsFetch s now fetch
      | none => listToolsFetch s now fetch

/-- The tail of `_list_resources` after a cache miss (mirror of
`listToolsFetch` for the resources slot). -/
def listResourcesFetch (s : Bridge) (now : ℤ)
    (fetch : Except String (List Resource)) :
    Except BridgeError (List Resource) × Bridge × Bool :=
  match fetch with
  | .ok resources =>
      (.ok resources,
       { s with resourcesCache := some resources, resourcesCacheAt := now }, true)
  | .error e => (.error (.backendFailure e), s, true)

/-- `_list_resources`: not-connected guard, cache check, then fetch. -/
def listResources (s : Bridge) (now : ℤ)
    (fetch : Except String (List Resource)) :
    Except BridgeError (List Resource) × Bridge × Bool :=
  match s.backend with
  | none => (.error .notConnected, s, false)
  | some _ =>
      match s.resourcesCache with
      | some cached =>
          if cacheValid s.resourcesCacheAt now then (.ok cached, s, false)
          else listResourcesFetch s now fetch
      | none => listResourcesFetch s now fetch

/-- `call_tool` handler: not-connected guard, then
`self.backend.call_tool(name, arguments)` and `result.content`
returned as-is. `call` is the backend's call-tool method. -/
def callTool (s : Bridge)
    (call : String → Args → Except String (List ContentItem))
    (name : String) (arguments : Args) :
    Except BridgeError (List ContentItem) × Bridge × Bool :=
  match s.backend with
  | none => (.error .notConnected, s, false)
  | some _ =>
      match call name arguments with
      | .ok content => (.ok content, s, true)
      | .error e => (.error (.backendFailure e), s, true)

/-- One content item of a read-resource result: optional `text` and
`blob` attributes (absent attribute = `none`). -/
structure ResourceContent where
  text : Option String
  blob : Option String
deriving DecidableEq, Repr

/-- A read-resource result: its `contents` list. -/
structure ReadResourceResult where
  contents : List ResourceContent
deriving DecidableEq, Repr

/-- The handler's return value: `str` or `bytes`. -/
inductive Payload where
  | text (t : String)
  | blob (b : String)
deriving DecidableEq, Repr

/-- Python truthiness of `hasattr(content, attr) and content.attr` for a
string-valued attribute: present and non-empty. -/
def truthyAttr : Option String → Bool
  | none => false
  | some t => decide (t ≠ "")

/-- The payload-selection tail of `read_resource`: first content item if
any, its `text` if truthy, else its `blob` if truthy, else `""`. -/
def selectPayload : List ResourceContent → Payload
  | [] => .text ""
  | c :: _ =>
      if truthyAttr c.text then .text (c.text.getD "")
      else if truthyAttr c.blob then .blob (c.blob.getD "")
      else .text ""

/-- `read_resource` handler: not-connected guard, forward `uri` to
`self.backend.read_resource`, then select the payload. `read` is the
backend's read-resource method. -/
def readResource (s : Bridge)
    (read : String → Except String ReadResourceResult) (uri : String) :
    Except BridgeError Payload × Bridge × Bool :=
  match s.backend with
  | none => (.error .notConnected, s, false)
  | some _ =>
      match read uri with
      | .ok result => (.ok (selectPayload result.contents), s, true)
      | .error e => (.error (.backendFailure e), s, true)

/-! ### Lifecycle (`run`)

`run` opens the HTTP transport, constructs a `ClientSession`, calls
`self._set_backend(session)`, then inside a `try` performs
`session.initialize()` and serves the stdio loop, with
`finally: self._set_backend(None)`.  The external collaborators
(transport open, handshake, stdio serve loop) are modelled by outcome
parameters; the serve loop is the fold of the four handlers over the
requests it dispatches. -/

/-- Outcome of `streamablehttp_client(...)` + `ClientSession(...)`:
failure, or a fresh session identified by `sid`. -/
inductive ConnectOutcome where
  | fail
  | ok (sid : Nat)
deriving DecidableEq, Repr

/-- Outcome of `session.initialize()`. -/
inductive HandshakeOutcome where
  | fail
  | ok
deriving DecidableEq, Repr

/-- How the stdio serve loop ends: client disconnect, an unrecoverable
error, or cancellation.  All three unwind through the `finally`. -/
inductive ServeOutcome where
  | clean
  | error
  | cancelled
deriving DecidableEq, Repr

/-- How `run` as a whole ends. -/
inductive RunResult where
  | connectFailed
  | handshakeFailed
  | serveFailed
  | cancelled
  | clean
deriving DecidableEq, Repr

/-- One request dispatched by the stdio serve loop, bundled with the
clock reading and backend response of that invocation. -/
inductive Request where
  | listToolsReq (now : ℤ) (fetch : Except String (List Tool))
  | listResourcesReq (now : ℤ) (fetch : Except String (List Resource))
  | callToolReq (call : String → Args → Except String (List ContentItem))
      (name : String) (arguments : Args)
  | readResourceReq (read : String → Except String ReadResourceResult)
      (uri : String)

/-- State effect of dispatching one request to its handler. -/
def stepRequest (s : Bridge) : Request → Bridge
  | .listToolsReq now fetch => (listTools s now fetch).2.1
  | .listResourcesReq now fetch => (listResources s now fetch).2.1
  | .callToolReq call name arguments => (callTool s call name arguments).2.1
  | .readResourceReq read uri => (readResource s read uri).2.1

/-- The stdio serve loop: handlers applied one request at a time. -/
def serveLoop (s : Bridge) (reqs : List Request) : Bridge :=
  reqs.foldl stepRequest s

/-- Observable lifecycle events of one `run`, in order. -/
inductive Event where
  | setB (b : Option Nat)
  | handshakeOk
  | handshakeFail
  | serveDone (o : ServeOutcome)
deriving DecidableEq, Repr

/-- `run`: connect, `_set_backend(session)`, `try` handshake + serve,
`finally _set_backend(None)`.  Returns the final bridge state, the
event trace, and the overall result. -/
def run (s : Bridge) (conn : ConnectOutcome) (hs : HandshakeOutcome)
    (reqs : List Request) (serve : ServeOutcome) :
    Bridge × List Event × RunResult :=
  match conn with
  | .fail => (s, [], .connectFailed)
  | .ok sid =>
      let s1 := setBackend s (some sid)
      match hs with
      | .fail =>
          (setBackend s1 none,
           [.setB (some sid), .handshakeFail, .setB none], .handshakeFailed)
      | .ok =>
          let s2 := serveLoop s1 reqs
          let res := match serve with
            | .clean => RunResult.clean
            | .error => RunResult.serveFailed
            | .cancelled => RunResult.cancelled
          (setBackend s2 none,
           [.setB (some sid), .handshakeOk, .serveDone serve, .setB none], res)

/-- A concrete freshly-connected state (backend session `1`, both caches
empty), used to evaluate the theorems below on concrete inputs. -/
def sampleConnected : Bridge :=
  { backend := some 1, toolsCache := none, toolsCacheAt := 0,
    resourcesCache := none, resourcesCacheAt := 0 }

/-! ### Helper lemmas -/

/-- A tools fetch never touches the backend field. -/
theorem listToolsFetch_backend (s : Bridge) (now : ℤ)
    (fetch : Except String (List Tool)) :
    (listToolsFetch s now fetch).2.1.backend = s.backend := by
  cases fetch <;> rfl

/-- A resources fetch never touches the backend field. -/
theorem listResourcesFetch_backend (s : Bridge) (now : ℤ)
    (fetch : Except String (List Resource)) :
    (listResourcesFetch s now fetch).2.1.backend = s.backend := by
  cases fetch <;> rfl

/-- `_list_tools` never changes the backend field. -/
theorem listTools_backend (s : Bridge) (now : ℤ)
    (fetch : Except String (List Tool)) :
    (listTools s now fetch).2.1.backend = s.backend := by
  rcases s with ⟨backend, tc, tca, rc, rca⟩
  cases backend <;> cases tc <;> cases fetch <;>
    simp only [listTools, listToolsFetch] <;>
    first
      | rfl
      | (split <;> rfl)

/-- `_list_resources` never changes the backend field. -/
theorem listResources_backend (s : Bridge) (now : ℤ)
    (fetch : Except String (List Resource)) :
    (listResources s now fetch).2.1.backend = s.backend := by
  rcases s with ⟨backend, tc, tca, rc, rca⟩
  cases backend <;> cases rc <;> cases fetch <;>
    simp only [listResources, listResourcesFetch] <;>
    first
      | rfl
      | (split <;> rfl)

/-- No handler dispatched by the serve loop changes the backend field. -/
theorem stepRequest_backend (s : Bridge) (r : Request) :
    (stepRequest s r).backend = s.backend := by
  cases r with
  | listToolsReq now fetch => exact listTools_backend s now fetch
  | listResourcesReq now fetch => exact listResources_backend s now fetch
  | callToolReq call name arguments =>
      show (callTool s call name arguments).2.1.backend = s.backend
      rcases s with ⟨backend, tc, tca, rc, rca⟩
      cases backend with
      | none => rfl
      | some b => cases h : call name arguments <;> simp [callTool, h]
  | readResourceReq read uri =>
      show (readResource s read uri).2.1.backend = s.backend
      rcases s with ⟨backend, tc, tca, rc, rca⟩
      cases backend with
      | none => rfl
      | some b => cases h : read uri <;> simp [readResource, h]

/-- The serve loop never changes the backend field. -/
theorem serveLoop_backend (s : Bridge) (reqs : List Request) :
    (serveLoop s reqs).backend = s.backend := by
  induction reqs generalizing s with
  | nil => rfl
  | cons r rest ih =>
      show (serveLoop (stepRequest s r) rest).backend = s.backend
      rw [ih, stepRequest_backend]

/-! ### Claim theorems -/

/-- Claim C2: `setBackend` with a handle not identical to the current one
(absent-to-present, present-to-absent, or present-to-different-present)
clears both metadata cache slots synchronously before returning,
regardless of TTL; and a `listTools`/`listResources` call issued right
after the swap is never served from a pre-swap cache entry: it either
fails not-connected or goes to the backend. -/
theorem C2_swap_clears_cache (s : Bridge) (b : Option Nat) (now : ℤ)
    (ft : Except String (List Tool)) (fr : Except String (List Resource))
    (hne : b ≠ s.backend) :
    setBackend s b
      = { backend := b, toolsCache := none, toolsCacheAt := 0,
          resourcesCache := none, resourcesCacheAt := 0 }
    ∧ ((listTools (setBackend s b) now ft).1
          = Except.error BridgeError.notConnected
        ∨ (listTools (setBackend s b) now ft).2.2 = true)
    ∧ ((listResources (setBackend s b) now fr).1
          = Except.error BridgeError.notConnected
        ∨ (listResources (setBackend s b) now fr).2.2 = true) := by
  have hset : setBackend s b
      = { backend := b, toolsCache := none, toolsCacheAt := 0,
          resourcesCache := none, resourcesCacheAt := 0 } := by
    unfold setBackend
    rw [if_neg hne]
    rfl
  refine ⟨hset, ?_, ?_⟩
  · rw [hset]
    cases b with
    | none => exact Or.inl rfl
    | some b' => exact Or.inr (by cases ft <;> rfl)
  · rw [hset]
    cases b with
    | none => exact Or.inl rfl
    | some b' => exact Or.inr (by cases fr <;> rfl)

/-- Witness for C2 at a concrete populated state and a present-to-absent
swap. -/
theorem C2_swap_clears_cache_witness :
    ((none : Option Nat)
        ≠ (Bridge.mk (some 1) (some ["tool-a"]) 5 (some ["res-a"]) 5).backend)
    ∧ (setBackend (Bridge.mk (some 1) (some ["tool-a"]) 5 (some ["res-a"]) 5) none
        = { backend := none, toolsCache := none, toolsCacheAt := 0,
            resourcesCache := none, resourcesCacheAt := 0 }
      ∧ ((listTools
            (setBackend (Bridge.mk (some 1) (some ["tool-a"]) 5 (some ["res-a"]) 5) none)
            7 (Except.ok ["x"])).1 = Except.error BridgeError.notConnected
          ∨ (listTools
              (setBackend (Bridge.mk (some 1) (some ["tool-a"]) 5 (some ["res-a"]) 5) none)
              7 (Except.ok ["x"])).2.2 = true)
      ∧ ((listResources
            (setBackend (Bridge.mk (some 1) (some ["tool-a"]) 5 (some ["res-a"]) 5) none)
            7 (Except.ok ["y"])).1 = Except.error BridgeError.notConnected
          ∨ (listResources
              (setBackend (Bridge.mk (some 1) (some ["tool-a"]) 5 (some ["res-a"]) 5) none)
              7 (Except.ok ["y"])).2.2 = true)) :=
  ⟨by decide,
   C2_swap_clears_cache (Bridge.mk (some 1) (some ["tool-a"]) 5 (some ["res-a"]) 5)
     none 7 (Except.ok ["x"]) (Except.ok ["y"]) (by decide)⟩

/-- Claim C3: a cached entry whose age `now - captured_at` is at least the
TTL is not reused: the backend is fetched, the fresh result is returned
and stored, and `captured_at` is updated to `now`; both metadata kinds
share the single 30-second TTL constant. -/
theorem C3_ttl_expiry_refetches (s : Bridge) (b : Nat) (now : ℤ)
    (vt ft : List Tool) (vr fr : List Resource)
    (hb : s.backend = some b)
    (ht : s.toolsCache = some vt)
    (htexp : metadataCacheTtlSeconds ≤ now - s.toolsCacheAt)
    (hr : s.resourcesCache = some vr)
    (hrexp : metadataCacheTtlSeconds ≤ now - s.resourcesCacheAt) :
    listTools s now (Except.ok ft)
      = (Except.ok ft, { s with toolsCache := some ft, toolsCacheAt := now }, true)
    ∧ listResources s now (Except.ok fr)
      = (Except.ok fr,
         { s with resourcesCache := some fr, resourcesCacheAt := now }, true)
    ∧ metadataCacheTtlSeconds = 30 := by
  simp only [metadataCacheTtlSeconds] at htexp hrexp
  have hvt : cacheValid s.toolsCacheAt now = false := by
    simp only [cacheValid, metadataCacheTtlSeconds, Bool.and_eq_false_iff,
      decide_eq_false_iff_not]
    right; omega
  have hvr : cacheValid s.resourcesCacheAt now = false := by
    simp only [cacheValid, metadataCacheTtlSeconds, Bool.and_eq_false_iff,
      decide_eq_false_iff_not]
    right; omega
  refine ⟨?_, ?_, rfl⟩
  · simp [listTools, hb, ht, hvt, listToolsFetch]
  · simp [listResources, hb, hr, hvr, listResourcesFetch]

/-- Witness for C3: entries captured at time 1 queried at time 31
(age exactly the TTL) are refetched. -/
theorem C3_ttl_expiry_refetches_witness :
    ((Bridge.mk (some 1) (some ["old-t"]) 1 (some ["old-r"]) 1).backend = some 1)
    ∧ ((Bridge.mk (some 1) (some ["old-t"]) 1 (some ["old-r"]) 1).toolsCache
        = some ["old-t"])
    ∧ (metadataCacheTtlSeconds
        ≤ 31 - (Bridge.mk (some 1) (some ["old-t"]) 1 (some ["old-r"]) 1).toolsCacheAt)
    ∧ ((Bridge.mk (some 1) (some ["old-t"]) 1 (some ["old-r"]) 1).resourcesCache
        = some ["old-r"])
    ∧ (metadataCacheTtlSeconds
        ≤ 31 - (Bridge.mk (some 1) (some ["old-t"]) 1 (some ["old-r"]) 1).resourcesCacheAt)
    ∧ (listTools (Bridge.mk (some 1) (some ["old-t"]) 1 (some ["old-r"]) 1) 31
          (Except.ok ["new-t"])
        = (Except.ok ["new-t"],
           { Bridge.mk (some 1) (some ["old-t"]) 1 (some ["old-r"]) 1 with
             toolsCache := some ["new-t"], toolsCacheAt := 31 }, true)
      ∧ listResources (Bridge.mk (some 1) (some ["old-t"]) 1 (some ["old-r"]) 1) 31
          (Except.ok ["new-r"])
        = (Except.ok ["new-r"],
           { Bridge.mk (some 1) (some ["old-t"]) 1 (some ["old-r"]) 1 with
             resourcesCache := some ["new-r"], resourcesCacheAt := 31 }, true)
      ∧ metadataCacheTtlSeconds = 30) :=
  ⟨by decide, by decide, by decide, by decide, by decide,
   C3_ttl_expiry_refetches (Bridge.mk (some 1) (some ["old-t"]) 1 (some ["old-r"]) 1)
     1 31 ["old-t"] ["new-t"] ["old-r"] ["new-r"]
     (by decide) (by decide) (by decide) (by decide) (by decide)⟩

/-- Claim C4: each of the four forwarding operations invoked while no
backend is active fails with the not-connected error, makes no backend
call (invocation flag `false`), and leaves the whole state — in
particular both cache slots — unchanged. -/
theorem C4_not_connected_guard (s : Bridge) (now : ℤ)
    (ft : Except String (List Tool)) (fr : Except String (List Resource))
    (call : String → Args → Except String (List ContentItem))
    (name : String) (arguments : Args)
    (read : String → Except String ReadResourceResult) (uri : String)
    (hb : s.backend = none) :
    listTools s now ft = (Except.error BridgeError.notConnected, s, false)
    ∧ listResources s now fr = (Except.error BridgeError.notConnected, s, false)
    ∧ callTool s call name arguments
        = (Except.error BridgeError.notConnected, s, false)
    ∧ readResource s read uri
        = (Except.error BridgeError.notConnected, s, false) := by
  refine ⟨?_, ?_, ?_, ?_⟩ <;>
    simp [listTools, listResources, callTool, readResource, hb]

/-- Witness for C4 at the freshly constructed (never connected) state. -/
theorem C4_not_connected_guard_witness :
    mkBridge.backend = none
    ∧ (listTools mkBridge 7 (Except.ok ["t"])
        = (Except.error BridgeError.notConnected, mkBridge, false)
      ∧ listResources mkBridge 7 (Except.ok ["r"])
        = (Except.error BridgeError.notConnected, mkBridge, false)
      ∧ callTool mkBridge (fun _ _ => Except.ok []) "n" []
        = (Except.error BridgeError.notConnected, mkBridge, false)
      ∧ readResource mkBridge (fun _ => Except.ok ⟨[]⟩) "u"
        = (Except.error BridgeError.notConnected, mkBridge, false)) :=
  ⟨rfl,
   C4_not_connected_guard mkBridge 7 (Except.ok ["t"]) (Except.ok ["r"])
     (fun _ _ => Except.ok []) "n" [] (fun _ => Except.ok ⟨[]⟩) "u" rfl⟩

/-- Claim C5: a failed cache-refresh fetch inside `listTools` or
`listResources` propagates the error to the caller unchanged and leaves
the state — in particular the cache slots, populated or empty — exactly
as it was before the call; only a successful fetch overwrites an entry. -/
theorem C5_failed_fetch_preserves_cache (s : Bridge) (b : Nat) (now : ℤ)
    (e : String) (hb : s.backend = some b) :
    (listTools s now (Except.error e)).2.1 = s
    ∧ ((s.toolsCache = none ∨ cacheValid s.toolsCacheAt now = false) →
        listTools s now (Except.error e)
          = (Except.error (BridgeError.backendFailure e), s, true))
    ∧ (listResources s now (Except.error e)).2.1 = s
    ∧ ((s.resourcesCache = none ∨ cacheValid s.resourcesCacheAt now = false) →
        listResources s now (Except.error e)
          = (Except.error (BridgeError.backendFailure e), s, true)) := by
  refine ⟨?_, ?_, ?_, ?_⟩
  · cases hc : s.toolsCache with
    | none => simp [listTools, hb, hc, listToolsFetch]
    | some cached =>
        by_cases hv : cacheValid s.toolsCacheAt now <;>
          simp [listTools, hb, hc, hv, listToolsFetch]
  · rintro (hc | hv)
    · simp [listTools, hb, hc, listToolsFetch]
    · cases hc : s.toolsCache with
      | none => simp [listTools, hb, hc, listToolsFetch]
      | some cached => simp [listTools, hb, hc, hv, listToolsFetch]
  · cases hc : s.resourcesCache with
    | none => simp [listResources, hb, hc, listResourcesFetch]
    | some cached =>
        by_cases hv : cacheValid s.resourcesCacheAt now <;>
          simp [listResources, hb, hc, hv, listResourcesFetch]
  · rintro (hc | hv)
    · simp [listResources, hb, hc, listResourcesFetch]
    · cases hc : s.resourcesCache with
      | none => simp [listResources, hb, hc, listResourcesFetch]
      | some cached => simp [listResources, hb, hc, hv, listResourcesFetch]

/-- Witness for C5 at a connected state with both caches empty: the
failed fetch leaves them empty and surfaces the backend error. -/
theorem C5_failed_fetch_preserves_cache_witness :
    sampleConnected.backend = some 1
    ∧ ((listTools sampleConnected 7 (Except.error "boom")).2.1 = sampleConnected
      ∧ ((sampleConnected.toolsCache = none
            ∨ cacheValid sampleConnected.toolsCacheAt 7 = false) →
          listTools sampleConnected 7 (Except.error "boom")
            = (Except.error (BridgeError.backendFailure "boom"), sampleConnected, true))
      ∧ (listResources sampleConnected 7 (Except.error "boom")).2.1 = sampleConnected
      ∧ ((sampleConnected.resourcesCache = none
            ∨ cacheValid sampleConnected.resourcesCacheAt 7 = false) →
          listResources sampleConnected 7 (Except.error "boom")
            = (Except.error (BridgeError.backendFailure "boom"), sampleConnected, true))) :=
  ⟨rfl, C5_failed_fetch_preserves_cache sampleConnected 1 7 "boom" rfl⟩

/-- Claim C10: `captured_at = 0` is never valid — the validity predicate
requires `captured_at > 0` on top of the TTL bound — so a fetch stored
while the monotonic clock reads exactly 0 is not reused: the immediately
following call with the clock still at 0 invokes the backend again.  The
value 0 doubles as the never-populated sentinel. -/
theorem C10_zero_timestamp_sentinel (s : Bridge) (b : Nat)
    (v : List Tool) (w : List Resource)
    (ft2 : Except String (List Tool)) (fr2 : Except String (List Resource))
    (now2 : ℤ)
    (hb : s.backend = some b) (hc : s.toolsCache = none)
    (hrc : s.resourcesCache = none) :
    listTools s 0 (Except.ok v)
      = (Except.ok v, { s with toolsCache := some v, toolsCacheAt := 0 }, true)
    ∧ (listTools (listTools s 0 (Except.ok v)).2.1 0 ft2).2.2 = true
    ∧ listResources s 0 (Except.ok w)
      = (Except.ok w, { s with resourcesCache := some w, resourcesCacheAt := 0 }, true)
    ∧ (listResources (listResources s 0 (Except.ok w)).2.1 0 fr2).2.2 = true
    ∧ cacheValid 0 now2 = false := by
  have h1 : listTools s 0 (Except.ok v)
      = (Except.ok v, { s with toolsCache := some v, toolsCacheAt := 0 }, true) := by
    simp [listTools, hb, hc, listToolsFetch]
  have h2 : listResources s 0 (Except.ok w)
      = (Except.ok w, { s with resourcesCache := some w, resourcesCacheAt := 0 },
         true) := by
    simp [listResources, hb, hrc, listResourcesFetch]
  refine ⟨h1, ?_, h2, ?_, ?_⟩
  · rw [h1]
    cases ft2 <;> simp [listTools, hb, cacheValid, listToolsFetch]
  · rw [h2]
    cases fr2 <;> simp [listResources, hb, cacheValid, listResourcesFetch]
  · simp [cacheValid]

/-- Witness for C10 at the freshly connected state at clock 0. -/
theorem C10_zero_timestamp_sentinel_witness :
    sampleConnected.backend = some 1
    ∧ sampleConnected.toolsCache = none
    ∧ sampleConnected.resourcesCache = none
    ∧ (listTools sampleConnected 0 (Except.ok ["t"])
        = (Except.ok ["t"],
           { sampleConnected with toolsCache := some ["t"], toolsCacheAt := 0 }, true)
      ∧ (listTools (listTools sampleConnected 0 (Except.ok ["t"])).2.1 0
          (Except.ok ["t"])).2.2 = true
      ∧ listResources sampleConnected 0 (Except.ok ["r"])
        = (Except.ok ["r"],
           { sampleConnected with resourcesCache := some ["r"], resourcesCacheAt := 0 },
           true)
      ∧ (listResources (listResources sampleConnected 0 (Except.ok ["r"])).2.1 0
          (Except.ok ["r"])).2.2 = true
      ∧ cacheValid 0 9 = false) :=
  ⟨rfl, rfl, rfl,
   C10_zero_timestamp_sentinel sampleConnected 1 ["t"] ["r"]
     (Except.ok ["t"]) (Except.ok ["r"]) 9 rfl rfl rfl⟩

/-- Claim C6: with an active backend, `readResource` computes its result
from the backend response as a cascade: no content items → empty text
payload (no error); otherwise the first item's text payload if present
and non-empty, else its binary payload if present and non-empty, else an
empty text payload. -/
theorem C6_read_resource_payload_selection (s : Bridge) (b : Nat)
    (read : String → Except String ReadResourceResult) (uri : String)
    (result : ReadResourceResult) (c : ResourceContent)
    (rest : List ResourceContent) (t bl : String)
    (hb : s.backend = some b) (hres : read uri = Except.ok result) :
    readResource s read uri = (Except.ok (selectPayload result.contents), s, true)
    ∧ selectPayload [] = Payload.text ""
    ∧ (c.text = some t → t ≠ "" → selectPayload (c :: rest) = Payload.text t)
    ∧ ((c.text = none ∨ c.text = some "") → c.blob = some bl → bl ≠ "" →
        selectPayload (c :: rest) = Payload.blob bl)
    ∧ ((c.text = none ∨ c.text = some "") → (c.blob = none ∨ c.blob = some "") →
        selectPayload (c :: rest) = Payload.text "") := by
  refine ⟨by simp [readResource, hb, hres], rfl, ?_, ?_, ?_⟩
  · intro h1 h2
    simp [selectPayload, truthyAttr, h1, h2]
  · rintro (h1 | h1) h2 h3 <;> simp [selectPayload, truthyAttr, h1, h2, h3]
  · rintro (h1 | h1) (h2 | h2) <;> simp [selectPayload, truthyAttr, h1, h2]

/-- Witness for C6: a backend response whose first content item has an
empty text attribute and a non-empty blob. -/
theorem C6_read_resource_payload_selection_witness :
    sampleConnected.backend = some 1
    ∧ (fun _ => (Except.ok (ReadResourceResult.mk [ResourceContent.mk (some "") (some "B")]) :
          Except String ReadResourceResult))
        "u" = Except.ok (ReadResourceResult.mk [ResourceContent.mk (some "") (some "B")])
    ∧ (readResource sampleConnected
          (fun _ => Except.ok (ReadResourceResult.mk [ResourceContent.mk (some "") (some "B")]))
          "u"
        = (Except.ok
            (selectPayload (ReadResourceResult.mk [ResourceContent.mk (some "") (some "B")]).contents),
           sampleConnected, true)
      ∧ selectPayload [] = Payload.text ""
      ∧ ((ResourceContent.mk (some "") (some "B")).text = some "x" → "x" ≠ "" →
          selectPayload (ResourceContent.mk (some "") (some "B") :: [])
            = Payload.text "x")
      ∧ (((ResourceContent.mk (some "") (some "B")).text = none
            ∨ (ResourceContent.mk (some "") (some "B")).text = some "") →
          (ResourceContent.mk (some "") (some "B")).blob = some "B" → "B" ≠ "" →
          selectPayload (ResourceContent.mk (some "") (some "B") :: [])
            = Payload.blob "B")
      ∧ (((ResourceContent.mk (some "") (some "B")).text = none
            ∨ (ResourceContent.mk (some "") (some "B")).text = some "") →
          ((ResourceContent.mk (some "") (some "B")).blob = none
            ∨ (ResourceContent.mk (some "") (some "B")).blob = some "") →
          selectPayload (ResourceContent.mk (some "") (some "B") :: [])
            = Payload.text "")) :=
  ⟨rfl, rfl,
   C6_read_resource_payload_selection sampleConnected 1
     (fun _ => Except.ok (ReadResourceResult.mk [ResourceContent.mk (some "") (some "B")]))
     "u" (ReadResourceResult.mk [ResourceContent.mk (some "") (some "B")])
     (ResourceContent.mk (some "") (some "B")) [] "x" "B" rfl rfl⟩

/-- Claim C7: `callTool` and `readResource` are never cached: with an
active backend every invocation forwards to the backend (the invocation
flag is `true`, also on an immediately repeated identical call), the
state — in particular both cache slots — is unchanged, `callTool` passes
`name` and `arguments` through verbatim and returns the backend's
content list unmodified, and the results are independent of the cache
contents (two connected states yield the same result). -/
theorem C7_call_and_read_never_cached (s s2 : Bridge) (b b2 : Nat)
    (call : String → Args → Except String (List ContentItem))
    (name : String) (arguments : Args)
    (read : String → Except String ReadResourceResult) (uri : String)
    (content : List ContentItem)
    (hb : s.backend = some b) (hb2 : s2.backend = some b2)
    (hok : call name arguments = Except.ok content) :
    (callTool s call name arguments).2.1 = s
    ∧ (callTool s call name arguments).2.2 = true
    ∧ (callTool (callTool s call name arguments).2.1 call name arguments).2.2 = true
    ∧ (callTool s call name arguments).1 = Except.ok content
    ∧ (callTool s call name arguments).1 = (callTool s2 call name arguments).1
    ∧ (readResource s read uri).2.1 = s
    ∧ (readResource s read uri).2.2 = true
    ∧ (readResource (readResource s read uri).2.1 read uri).2.2 = true
    ∧ (readResource s read uri).1 = (readResource s2 read uri).1 := by
  have hct : callTool s call name arguments = (Except.ok content, s, true) := by
    simp [callTool, hb, hok]
  have hct2 : callTool s2 call name arguments = (Except.ok content, s2, true) := by
    simp [callTool, hb2, hok]
  have hrr : (readResource s read uri).2.1 = s
      ∧ (readResource s read uri).2.2 = true := by
    cases h : read uri <;> simp [readResource, hb, h]
  refine ⟨by rw [hct], by rw [hct], ?_, by rw [hct], by rw [hct, hct2], hrr.1, hrr.2,
    ?_, ?_⟩
  · rw [hct]
    exact (by rw [hct] : (callTool s call name arguments).2.2 = true)
  · rw [hrr.1]
    exact hrr.2
  · cases h : read uri <;> simp [readResource, hb, hb2, h]

/-- Witness for C7 with a backend echoing one content item. -/
theorem C7_call_and_read_never_cached_witness :
    sampleConnected.backend = some 1
    ∧ (Bridge.mk (some 2) (some ["cached"]) 5 (some ["rcached"]) 5).backend = some 2
    ∧ (fun _ _ => (Except.ok ["out"] : Except String (List ContentItem))) "n" ([] : Args)
        = Except.ok ["out"]
    ∧ ((callTool sampleConnected (fun _ _ => Except.ok ["out"]) "n" []).2.1
        = sampleConnected
      ∧ (callTool sampleConnected (fun _ _ => Except.ok ["out"]) "n" []).2.2 = true
      ∧ (callTool (callTool sampleConnected (fun _ _ => Except.ok ["out"]) "n" []).2.1
          (fun _ _ => Except.ok ["out"]) "n" []).2.2 = true
      ∧ (callTool sampleConnected (fun _ _ => Except.ok ["out"]) "n" []).1
        = Except.ok ["out"]
      ∧ (callTool sampleConnected (fun _ _ => Except.ok ["out"]) "n" []).1
        = (callTool (Bridge.mk (some 2) (some ["cached"]) 5 (some ["rcached"]) 5)
            (fun _ _ => Except.ok ["out"]) "n" []).1
      ∧ (readResource sampleConnected (fun _ => Except.ok ⟨[]⟩) "u").2.1
        = sampleConnected
      ∧ (readResource sampleConnected (fun _ => Except.ok ⟨[]⟩) "u").2.2 = true
      ∧ (readResource
          (readResource sampleConnected (fun _ => Except.ok ⟨[]⟩) "u").2.1
          (fun _ => Except.ok ⟨[]⟩) "u").2.2 = true
      ∧ (readResource sampleConnected (fun _ => Except.ok ⟨[]⟩) "u").1
        = (readResource (Bridge.mk (some 2) (some ["cached"]) 5 (some ["rcached"]) 5)
            (fun _ => Except.ok ⟨[]⟩) "u").1) :=
  ⟨rfl, rfl, rfl,
   C7_call_and_read_never_cached sampleConnected
     (Bridge.mk (some 2) (some ["cached"]) 5 (some ["rcached"]) 5) 1 2
     (fun _ _ => Except.ok ["out"]) "n" [] (fun _ => Except.ok ⟨[]⟩) "u" ["out"]
     rfl rfl rfl⟩

/-- Clearing the backend from any connected state yields the fully
disconnected, cache-cleared state. -/
theorem setBackend_none_of_connected (s : Bridge) (sid : Nat)
    (h : s.backend = some sid) :
    setBackend s none
      = { backend := none, toolsCache := none, toolsCacheAt := 0,
          resourcesCache := none, resourcesCacheAt := 0 } := by
  unfold setBackend
  rw [if_neg (by simp [h])]
  rfl

/-- Claim C8: on every exit path of `run` after a backend session was
established — handshake failure, serve-loop error, cancellation, or a
clean end — `setBackend(absent)` executes before `run` completes, so the
final state has no backend and both cache slots cleared. -/
theorem C8_teardown_on_every_exit_path (s : Bridge) (sid : Nat)
    (hs : HandshakeOutcome) (reqs : List Request) (serve : ServeOutcome) :
    (run s (.ok sid) hs reqs serve).1
      = { backend := none, toolsCache := none, toolsCacheAt := 0,
          resourcesCache := none, resourcesCacheAt := 0 }
    ∧ Event.setB none ∈ (run s (.ok sid) hs reqs serve).2.1 := by
  cases hs with
  | fail =>
      refine ⟨?_, by simp [run]⟩
      show setBackend (setBackend s (some sid)) none = _
      exact setBackend_none_of_connected _ sid (by simp [setBackend])
  | ok =>
      refine ⟨?_, by simp [run]⟩
      show setBackend (serveLoop (setBackend s (some sid)) reqs) none = _
      refine setBackend_none_of_connected _ sid ?_
      rw [serveLoop_backend]
      simp [setBackend]

/-- Claim C9 counterexample: in the run where the handshake fails — so
the handshake never completes successfully — the very first lifecycle
event already installs session 5 as the active BackendHandle, and
installing it does make it the active handle. -/
theorem C9_counterexample :
    (run mkBridge (.ok 5) .fail [] .clean).2.1.head? = some (.setB (some 5))
    ∧ Event.handshakeOk ∉ (run mkBridge (.ok 5) .fail [] .clean).2.1
    ∧ (setBackend mkBridge (some 5)).backend = some 5
    ∧ (run mkBridge (.ok 5) .fail [] .clean).2.2 = RunResult.handshakeFailed := by
  decide

/-- Claim C9 as amended: once the transport connect succeeds, the session
is installed as the active BackendHandle via `setBackend` immediately
after construction and *before* the initialize handshake is attempted
(it is the first lifecycle event, preceding any handshake event); on a
handshake failure the `finally` clause clears it again before `run`
completes. -/
theorem C9_backend_set_before_handshake (s : Bridge) (sid : Nat)
    (hs : HandshakeOutcome) (reqs : List Request) (serve : ServeOutcome) :
    (run s (.ok sid) hs reqs serve).2.1.head? = some (.setB (some sid))
    ∧ (setBackend s (some sid)).backend = some sid
    ∧ (run s (.ok sid) .fail reqs serve).1.backend = none
    ∧ (run s (.ok sid) .fail reqs serve).2.2 = RunResult.handshakeFailed := by
  refine ⟨?_, by simp [setBackend], ?_, rfl⟩
  · cases hs <;> rfl
  · show (setBackend (setBackend s (some sid)) none).backend = none
    simp [setBackend]

/-- Two same-clock `listTools` calls at a positive clock reading with
succeeding fetches: the second returns the first's result, changes
nothing, and if the first invoked the backend the second does not. -/
theorem listTools_pair_hit (s : Bridge) (b : Nat) (now : ℤ) (v w : List Tool)
    (hb : s.backend = some b) (hnow : 0 < now) :
    (listTools (listTools s now (Except.ok v)).2.1 now (Except.ok w)).1
        = (listTools s now (Except.ok v)).1
    ∧ (listTools (listTools s now (Except.ok v)).2.1 now (Except.ok w)).2.1
        = (listTools s now (Except.ok v)).2.1
    ∧ (listTools (listTools s now (Except.ok v)).2.1 now (Except.ok w)).2.2
        = false := by
  have hv : cacheValid now now = true := by
    simp only [cacheValid, metadataCacheTtlSeconds, Bool.and_eq_true,
      decide_eq_true_eq]
    omega
  cases hc : s.toolsCache with
  | none =>
      have h1 : listTools s now (Except.ok v)
          = (Except.ok v, { s with toolsCache := some v, toolsCacheAt := now },
             true) := by
        simp [listTools, hb, hc, listToolsFetch]
      have h2 : listTools { s with toolsCache := some v, toolsCacheAt := now } now
            (Except.ok w)
          = (Except.ok v, { s with toolsCache := some v, toolsCacheAt := now },
             false) := by
        simp [listTools, hb, hv]
      rw [h1]
      exact ⟨by rw [h2], by rw [h2], by rw [h2]⟩
  | some cached =>
      by_cases hvc : cacheValid s.toolsCacheAt now
      · have h1 : listTools s now (Except.ok v) = (Except.ok cached, s, false) := by
          simp [listTools, hb, hc, hvc]
        have h2 : listTools s now (Except.ok w) = (Except.ok cached, s, false) := by
          simp [listTools, hb, hc, hvc]
        rw [h1]
        exact ⟨by simp [h2], by simp [h2], by simp [h2]⟩
      · have h1 : listTools s now (Except.ok v)
            = (Except.ok v, { s with toolsCache := some v, toolsCacheAt := now },
               true) := by
          simp [listTools, hb, hc, hvc, listToolsFetch]
        have h2 : listTools { s with toolsCache := some v, toolsCacheAt := now } now
              (Except.ok w)
            = (Except.ok v, { s with toolsCache := some v, toolsCacheAt := now },
               false) := by
          simp [listTools, hb, hv]
        rw [h1]
        exact ⟨by rw [h2], by rw [h2], by rw [h2]⟩

/-- Mirror of `listTools_pair_hit` for the resources cache slot. -/
theorem listResources_pair_hit (s : Bridge) (b : Nat) (now : ℤ)
    (v w : List Resource) (hb : s.backend = some b) (hnow : 0 < now) :
    (listResources (listResources s now (Except.ok v)).2.1 now (Except.ok w)).1
        = (listResources s now (Except.ok v)).1
    ∧ (listResources (listResources s now (Except.ok v)).2.1 now (Except.ok w)).2.1
        = (listResources s now (Except.ok v)).2.1
    ∧ (listResources (listResources s now (Except.ok v)).2.1 now (Except.ok w)).2.2
        = false := by
  have hv : cacheValid now now = true := by
    simp only [cacheValid, metadataCacheTtlSeconds, Bool.and_eq_true,
      decide_eq_true_eq]
    omega
  cases hc : s.resourcesCache with
  | none =>
      have h1 : listResources s now (Except.ok v)
          = (Except.ok v,
             { s with resourcesCache := some v, resourcesCacheAt := now }, true) := by
        simp [listResources, hb, hc, listResourcesFetch]
      have h2 : listResources
            { s with resourcesCache := some v, resourcesCacheAt := now } now
            (Except.ok w)
          = (Except.ok v,
             { s with resourcesCache := some v, resourcesCacheAt := now }, false) := by
        simp [listResources, hb, hv]
      rw [h1]
      exact ⟨by rw [h2], by rw [h2], by rw [h2]⟩
  | some cached =>
      by_cases hvc : cacheValid s.resourcesCacheAt now
      · have h1 : listResources s now (Except.ok v)
            = (Except.ok cached, s, false) := by
          simp [listResources, hb, hc, hvc]
        have h2 : listResources s now (Except.ok w)
            = (Except.ok cached, s, false) := by
          simp [listResources, hb, hc, hvc]
        rw [h1]
        exact ⟨by simp [h2], by simp [h2], by simp [h2]⟩
      · have h1 : listResources s now (Except.ok v)
            = (Except.ok v,
               { s with resourcesCache := some v, resourcesCacheAt := now },
               true) := by
          simp [listResources, hb, hc, hvc, listResourcesFetch]
        have h2 : listResources
              { s with resourcesCache := some v, resourcesCacheAt := now } now
              (Except.ok w)
            = (Except.ok v,
               { s with resourcesCache := some v, resourcesCacheAt := now },
               false) := by
          simp [listResources, hb, hv]
        rw [h1]
        exact ⟨by rw [h2], by rw [h2], by rw [h2]⟩

/-- Claim C1 counterexample: from a connected state with an empty tools
cache, two `listTools` calls with the same active backend and the
monotonic clock unchanged (both read exactly 0) each invoke the
backend's list-tools operation — two invocations, not at most one — even
though both fetches succeed with the same value. -/
theorem C1_counterexample :
    sampleConnected.backend = some 1
    ∧ (listTools sampleConnected 0 (Except.ok ["tool-a"])).2.1.backend = some 1
    ∧ (listTools sampleConnected 0 (Except.ok ["tool-a"])).2.2 = true
    ∧ (listTools (listTools sampleConnected 0 (Except.ok ["tool-a"])).2.1 0
        (Except.ok ["tool-a"])).2.2 = true := by
  decide

/-- Claim C1 as amended: for every pair of `listTools` calls issued with
the same active backend, the monotonic clock unchanged between them and
reading a *strictly positive* value, and with succeeding fetches, the
backend's list-tools operation is invoked at most once — the second call
returns the first call's sequence and changes nothing (zero additional
backend traffic).  The same holds independently for `listResources`. -/
theorem C1_ttl_hit (s : Bridge) (b : Nat) (now : ℤ)
    (v w : List Tool) (vr wr : List Resource)
    (hb : s.backend = some b) (hnow : 0 < now) :
    (listTools (listTools s now (Except.ok v)).2.1 now (Except.ok w)).1
        = (listTools s now (Except.ok v)).1
    ∧ (listTools (listTools s now (Except.ok v)).2.1 now (Except.ok w)).2.1
        = (listTools s now (Except.ok v)).2.1
    ∧ (listTools (listTools s now (Except.ok v)).2.1 now (Except.ok w)).2.2
        = false
    ∧ (listResources (listResources s now (Except.ok vr)).2.1 now
          (Except.ok wr)).1
        = (listResources s now (Except.ok vr)).1
    ∧ (listResources (listResources s now (Except.ok vr)).2.1 now
          (Except.ok wr)).2.1
        = (listResources s now (Except.ok vr)).2.1
    ∧ (listResources (listResources s now (Except.ok vr)).2.1 now
          (Except.ok wr)).2.2
        = false := by
  obtain ⟨t1, t2, t3⟩ := listTools_pair_hit s b now v w hb hnow
  obtain ⟨r1, r2, r3⟩ := listResources_pair_hit s b now vr wr hb hnow
  exact ⟨t1, t2, t3, r1, r2, r3⟩

/-- Witness for the amended C1 at clock 5 from the freshly connected
state. -/
theorem C1_ttl_hit_witness :
    sampleConnected.backend = some 1
    ∧ (0 : ℤ) < 5
    ∧ ((listTools (listTools sampleConnected 5 (Except.ok ["tool-a"])).2.1 5
          (Except.ok ["tool-b"])).1
        = (listTools sampleConnected 5 (Except.ok ["tool-a"])).1
      ∧ (listTools (listTools sampleConnected 5 (Except.ok ["tool-a"])).2.1 5
          (Except.ok ["tool-b"])).2.1
        = (listTools sampleConnected 5 (Except.ok ["tool-a"])).2.1
      ∧ (listTools (listTools sampleConnected 5 (Except.ok ["tool-a"])).2.1 5
          (Except.ok ["tool-b"])).2.2 = false
      ∧ (listResources (listResources sampleConnected 5 (Except.ok ["res-a"])).2.1 5
          (Except.ok ["res-b"])).1
        = (listResources sampleConnected 5 (Except.ok ["res-a"])).1
      ∧ (listResources (listResources sampleConnected 5 (Except.ok ["res-a"])).2.1 5
          (Except.ok ["res-b"])).2.1
        = (listResources sampleConnected 5 (Except.ok ["res-a"])).2.1
      ∧ (listResources (listResources sampleConnected 5 (Except.ok ["res-a"])).2.1 5
          (Except.ok ["res-b"])).2.2 = false) :=
  ⟨rfl, by decide,
   C1_ttl_hit sampleConnected 1 5 ["tool-a"] ["tool-b"] ["res-a"] ["res-b"]
     rfl (by decide)⟩

end RecafBridge
